import Mathlib

/-!
Verification of the vote-tallying core and service glue of the alx-polly
polling application.

The definitions below are a shallow embedding of the TypeScript source:

* `app/lib/types/index.ts`        — the `Poll` record;
* `app/lib/vote-utils.ts`         — `countVotesByOption`, `calculateVoteResults`,
                                    `getUserVote`, `validateVote`, `createPollResults`;
* `app/api/polls/[id]/vote/route.ts` — the vote endpoint `POST` handler;
* `app/lib/actions/poll-actions.ts`  — `submitVote`, `updatePoll`, `deletePoll`;
* `supabase-schema.sql`           — the row-level-security policies that restrict
                                    update/delete to the poll owner.

JavaScript numbers that in fact hold integers are modelled as `Int` (or `Nat`
where the source can only produce non-negative values); JavaScript
`null`/`undefined` become `Option`; the data store is an explicit list of rows.
`Math.round` on the non-negative arguments that arise here is
`fun q => Int.floor (q + 1/2)` (round half up).
-/

/-- The `Poll` record of `app/lib/types/index.ts` (the `created_at` string
plays no role in any verified function and is omitted). -/
structure Poll where
  id : String
  question : String
  options : List String
  user_id : String
deriving Repr, DecidableEq

/-- A vote row as consumed by `vote-utils.ts`: nullable `user_id` and an
integer `option_index`. -/
structure Vote where
  user_id : Option String
  option_index : Int
deriving Repr, DecidableEq

/-- The derived `VoteResult` record of `calculateVoteResults`. -/
structure VoteResult where
  option_index : Nat
  option_text : String
  vote_count : Nat
  percentage : Nat
deriving Repr, DecidableEq

/-- The result record of `validateVote`. -/
structure ValidationResult where
  isValid : Bool
  error : Option String
deriving Repr, DecidableEq

/-- The `PollResults` aggregate built by `createPollResults` (the enriched
poll copy is represented by its added fields `total_votes` / `vote_counts`;
the unchanged `Poll` fields are not duplicated). -/
structure PollResults where
  results : List VoteResult
  total_votes : Nat
  vote_counts : List Nat
  has_user_voted : Bool
  user_vote : Option Int
deriving Repr, DecidableEq

/-- `Math.round` for the non-negative arguments arising in this code:
round half up, `⌊q + 1/2⌋`. -/
def mathRound (q : ℚ) : ℤ := ⌊q + 1/2⌋

/-- `countVotesByOption` of `app/lib/vote-utils.ts`: an array of
`poll.options.length` zero counters, then one `forEach` pass over the votes
incrementing `voteCounts[vote.option_index]` for every in-range index. -/
def countVotesByOption (poll : Poll) (votes : List Vote) : List Nat :=
  votes.foldl
    (fun voteCounts vote =>
      if 0 ≤ vote.option_index ∧ vote.option_index < (poll.options.length : Int) then
        voteCounts.set vote.option_index.toNat
          (voteCounts.getD vote.option_index.toNat 0 + 1)
      else
        voteCounts)
    (List.replicate poll.options.length 0)

/-- `calculateVoteResults` of `app/lib/vote-utils.ts`:
`totalVotes = voteCounts.reduce((sum, count) => sum + count, 0)`, then a map
over `poll.options` with index; `voteCounts[index] || 0` is `getD index 0`. -/
def calculateVoteResults (poll : Poll) (voteCounts : List Nat) : List VoteResult :=
  let totalVotes : Nat := voteCounts.foldl (· + ·) 0
  poll.options.enum.map fun oi =>
    { option_index := oi.1
      option_text := oi.2
      vote_count := voteCounts.getD oi.1 0
      percentage :=
        if 0 < totalVotes then
          (mathRound (((voteCounts.getD oi.1 0 : ℕ) : ℚ) / (totalVotes : ℚ) * 100)).toNat
        else 0 }

/-- `getUserVote` of `app/lib/vote-utils.ts`. `if (!userId) return null`
treats both `null` and the empty string as falsy; otherwise the first vote
row with matching `user_id` supplies the option index. -/
def getUserVote (votes : List Vote) (userId : Option String) : Option Int :=
  match userId with
  | none => none
  | some u =>
    if u = "" then none
    else
      match votes.find? (fun vote => vote.user_id = some u) with
      | some vote => some vote.option_index
      | none => none

/-- `validateVote` of `app/lib/vote-utils.ts`: the option-bounds check runs
first, the existing-vote check second. -/
def validateVote (optionIndex : Int) (poll : Poll) (existingVote : Option Int) :
    ValidationResult :=
  if optionIndex < 0 ∨ (poll.options.length : Int) ≤ optionIndex then
    { isValid := false, error := some "Invalid option selected" }
  else if existingVote ≠ none then
    { isValid := false, error := some "You have already voted on this poll" }
  else
    { isValid := true, error := none }

/-- `createPollResults` of `app/lib/vote-utils.ts`. The `user_vote` field is
`userVote || undefined`: the JavaScript `||` also sends the number `0` to
`undefined`, which the embedding reproduces exactly. -/
def createPollResults (poll : Poll) (votes : List Vote) (userId : Option String) :
    PollResults :=
  let voteCounts := countVotesByOption poll votes
  let results := calculateVoteResults poll voteCounts
  let totalVotes := voteCounts.foldl (· + ·) 0
  let userVote := getUserVote votes userId
  { results := results
    total_votes := totalVotes
    vote_counts := voteCounts
    has_user_voted := userVote.isSome
    user_vote := if userVote = some 0 then none else userVote }

/-- A persisted vote row (`supabase-schema.sql`: `votes` has `poll_id`,
nullable `user_id`, `option_index`). -/
structure StoredVote where
  poll_id : String
  user_id : Option String
  option_index : Int
deriving Repr, DecidableEq

/-- The two tables the verified operations touch. -/
structure Database where
  polls : List Poll
  votes : List StoredVote
deriving Repr, DecidableEq

/-- Outcome of a server action together with the resulting store. -/
structure ActionResult where
  error : Option String
  db : Database
deriving Repr, DecidableEq

/-- `updatePoll` of `app/lib/actions/poll-actions.ts`: input validation
(`filter(Boolean)` drops empty option strings, `!question` rejects the empty
question), then the auth check, then an `update` filtered by
`.eq("id", pollId).eq("user_id", user.id)`; the row-level-security policy
`auth.uid() = user_id` imposes the same owner restriction.  A filter that
matches no row is not a data-store error. -/
def updatePoll (db : Database) (pollId : String) (question : String)
    (rawOptions : List String) (user : Option String) (userError : Option String)
    (dbFailure : Option String) : ActionResult :=
  let options := rawOptions.filter (fun s => !(s == ""))
  if question = "" ∨ options.length < 2 then
    { error := some "Please provide a question and at least two options.", db := db }
  else
    match userError with
    | some m => { error := some m, db := db }
    | none =>
      match user with
      | none => { error := some "You must be logged in to update a poll.", db := db }
      | some uid =>
        match dbFailure with
        | some m => { error := some m, db := db }
        | none =>
          { error := none
            db := { db with polls := db.polls.map (fun p =>
                      if p.id = pollId ∧ p.user_id = uid then
                        { p with question := question, options := options }
                      else p) } }

/-- `deletePoll` of `app/lib/actions/poll-actions.ts`: a bare
`delete().eq("id", id)` with no requester check in the action itself; the
row-level-security policy `auth.uid() = user_id` (`supabase-schema.sql`)
restricts the deletion to rows owned by the authenticated caller
(`authUid`), and votes of a deleted poll are cascade-deleted.  Deleting zero
rows is not a data-store error. -/
def deletePoll (db : Database) (id : String) (authUid : Option String)
    (dbFailure : Option String) : ActionResult :=
  match dbFailure with
  | some m => { error := some m, db := db }
  | none =>
    let deletedIds : List String :=
      (db.polls.filter (fun p => decide (p.id = id ∧ some p.user_id = authUid))).map Poll.id
    { error := none
      db := { polls := db.polls.filter (fun p => decide (¬(p.id = id ∧ some p.user_id = authUid)))
              votes := db.votes.filter (fun v => decide (¬ v.poll_id ∈ deletedIds)) } }

/-- Result of `submitVote` of `app/lib/actions/poll-actions.ts`, paired with
the rows the insert added. -/
structure SubmitResult where
  error : Option String
  inserted : List StoredVote
deriving Repr, DecidableEq

/-- `submitVote` of `app/lib/actions/poll-actions.ts`: no auth requirement
(the guard is commented out in the source); inserts
`poll_id, user_id: user?.id ?? null, option_index` and reports the data
store's error message, if any. -/
def submitVote (pollId : String) (optionIndex : Int) (user : Option String)
    (insertError : Option String) : SubmitResult :=
  match insertError with
  | some m => { error := some m, inserted := [] }
  | none =>
    { error := none
      inserted := [{ poll_id := pollId, user_id := user, option_index := optionIndex }] }

/-- A data-store error as surfaced by the client: Postgres `code` and
`message`. -/
structure DbError where
  code : String
  message : String
deriving Repr, DecidableEq

/-- `sub.isPrefixOf`-style check on character lists, used to model
JavaScript `String.prototype.includes`. -/
def listStartsWith : List Char → List Char → Bool
  | [], _ => true
  | _ :: _, [] => false
  | a :: as, b :: bs => a == b && listStartsWith as bs

/-- JavaScript `s.includes(sub)`: some suffix of `s` starts with `sub`. -/
def strIncludes (s sub : String) : Bool :=
  (List.range (s.data.length + 1)).any (fun i => listStartsWith sub.data (s.data.drop i))

/-- The request-scoped environment of one `POST /api/polls/[id]/vote` call:
what the auth provider and the data store answer at each step. -/
structure VoteRequestEnv where
  user : Option String
  userError : Bool
  poll : Option Poll
  body : Option Int
  existingVotes : List Int
  insertError : Option DbError
deriving Repr, DecidableEq

/-- An HTTP response of the vote endpoint, together with whether execution
reached the vote insert. -/
structure RouteResponse where
  status : Nat
  error : Option String
  insertAttempted : Bool
deriving Repr, DecidableEq

/-- The `POST` handler of `app/api/polls/[id]/vote/route.ts`: 401 without an
authenticated user, 404 for a missing poll, 400 for a body failing the zod
bounds or for a failed `validateVote`, then the insert — a uniqueness
violation (code `23505` or a `duplicate key` message) becomes 409
`Already voted`, any other insert error 500, success 201. -/
def votePOST (env : VoteRequestEnv) : RouteResponse :=
  match env.user with
  | none => { status := 401, error := some "Authentication required to vote", insertAttempted := false }
  | some uid =>
    if env.userError then
      { status := 401, error := some "Authentication required to vote", insertAttempted := false }
    else
      match env.poll with
      | none => { status := 404, error := some "Poll not found", insertAttempted := false }
      | some poll =>
        let badRequest : RouteResponse :=
          { status := 400
            error := some ("Invalid request: optionIndex must be between 0 and "
              ++ toString ((poll.options.length : Int) - 1))
            insertAttempted := false }
        match env.body with
        | none => badRequest
        | some optionIndex =>
          if optionIndex < 0 ∨ (poll.options.length : Int) - 1 < optionIndex then
            badRequest
          else
            let userVote := getUserVote
              (env.existingVotes.map (fun oi => { user_id := some uid, option_index := oi }))
              (some uid)
            let validation := validateVote optionIndex poll userVote
            if validation.isValid then
              match env.insertError with
              | some e =>
                if e.code = "23505" ∨ strIncludes e.message "duplicate key" then
                  { status := 409, error := some "Already voted", insertAttempted := true }
                else
                  { status := 500, error := some e.message, insertAttempted := true }
              | none => { status := 201, error := none, insertAttempted := true }
            else
              { status := 400, error := validation.error, insertAttempted := false }

/-! ### Fixed sample data used by concrete instantiations -/

/-- A two-option poll owned by `owner1`. -/
def pollAB : Poll :=
  { id := "p1", question := "Which letter?", options := ["A", "B"], user_id := "owner1" }

/-- The three-option poll of the worked scenario in the specification. -/
def pollABC : Poll :=
  { id := "p3", question := "Which letter?", options := ["A", "B", "C"], user_id := "owner1" }

/-! ### General lemmas -/

theorem foldl_add_eq_sum (l : List Nat) (n : Nat) : l.foldl (· + ·) n = n + l.sum := by
  induction l generalizing n with
  | nil => simp
  | cons a t ih =>
    rw [List.foldl_cons, ih, List.sum_cons]
    omega

theorem getUserVote_nil (u : Option String) : getUserVote [] u = none := by
  cases u with
  | none => rfl
  | some s => simp [getUserVote]

/-- The in-range test applied to each vote by `countVotesByOption`. -/
def voteInRange (poll : Poll) (vote : Vote) : Bool :=
  decide (0 ≤ vote.option_index ∧ vote.option_index < (poll.options.length : Int))

theorem count_foldl_length (p : Poll) (v : List Vote) (acc : List Nat) :
    (v.foldl
      (fun voteCounts vote =>
        if 0 ≤ vote.option_index ∧ vote.option_index < (p.options.length : Int) then
          voteCounts.set vote.option_index.toNat
            (voteCounts.getD vote.option_index.toNat 0 + 1)
        else
          voteCounts) acc).length = acc.length := by
  induction v generalizing acc with
  | nil => rfl
  | cons a t ih =>
    rw [List.foldl_cons, ih]
    split <;> simp

theorem count_foldl_filter (p : Poll) (v : List Vote) (acc : List Nat) :
    (v.filter (voteInRange p)).foldl
      (fun voteCounts vote =>
        if 0 ≤ vote.option_index ∧ vote.option_index < (p.options.length : Int) then
          voteCounts.set vote.option_index.toNat
            (voteCounts.getD vote.option_index.toNat 0 + 1)
        else
          voteCounts) acc
    = v.foldl
      (fun voteCounts vote =>
        if 0 ≤ vote.option_index ∧ vote.option_index < (p.options.length : Int) then
          voteCounts.set vote.option_index.toNat
            (voteCounts.getD vote.option_index.toNat 0 + 1)
        else
          voteCounts) acc := by
  induction v generalizing acc with
  | nil => rfl
  | cons a t ih =>
    by_cases h : 0 ≤ a.option_index ∧ a.option_index < (p.options.length : Int)
    · rw [List.filter_cons, if_pos (by simpa [voteInRange] using h), List.foldl_cons,
        List.foldl_cons, ih]
    · rw [List.filter_cons, if_neg (by simpa [voteInRange] using h), ih, List.foldl_cons]
      congr 1
      exact (if_neg h).symm

theorem sum_set_getD_succ (l : List Nat) (i : Nat) (h : i < l.length) :
    (l.set i (l.getD i 0 + 1)).sum = l.sum + 1 := by
  induction l generalizing i with
  | nil => simp at h
  | cons a t ih =>
    cases i with
    | zero =>
      rw [show (a :: t).set 0 ((a :: t).getD 0 0 + 1) = (a + 1) :: t from rfl,
        List.sum_cons, List.sum_cons]
      omega
    | succ n =>
      have hn : n < t.length := by simpa using h
      rw [show (a :: t).set (n + 1) ((a :: t).getD (n + 1) 0 + 1)
            = a :: t.set n (t.getD n 0 + 1) from rfl,
        List.sum_cons, List.sum_cons, ih n hn]
      omega

theorem getD_set_self (l : List Nat) (i x d : Nat) (h : i < l.length) :
    (l.set i x).getD i d = x := by
  rw [List.getD_eq_getElem?_getD, List.getElem?_set_eq_of_lt x h]
  rfl

theorem getD_set_ne (l : List Nat) (i j x d : Nat) (h : i ≠ j) :
    (l.set i x).getD j d = l.getD j d := by
  rw [List.getD_eq_getElem?_getD, List.getElem?_set_ne h, ← List.getD_eq_getElem?_getD]

theorem count_foldl_sum (p : Poll) (v : List Vote) (acc : List Nat)
    (hlen : acc.length = p.options.length) :
    (v.foldl
      (fun voteCounts vote =>
        if 0 ≤ vote.option_index ∧ vote.option_index < (p.options.length : Int) then
          voteCounts.set vote.option_index.toNat
            (voteCounts.getD vote.option_index.toNat 0 + 1)
        else
          voteCounts) acc).sum
    = acc.sum + (v.filter (voteInRange p)).length := by
  induction v generalizing acc with
  | nil => simp
  | cons a t ih =>
    rw [List.foldl_cons, List.filter_cons]
    by_cases h : 0 ≤ a.option_index ∧ a.option_index < (p.options.length : Int)
    · have hbound : a.option_index.toNat < acc.length := by
        rw [hlen]
        omega
      have hb : voteInRange p a = true := by simpa [voteInRange] using h
      have hlen' : (acc.set a.option_index.toNat
          (acc.getD a.option_index.toNat 0 + 1)).length = p.options.length := by
        rw [List.length_set, hlen]
      rw [if_pos h, if_pos hb, ih _ hlen', sum_set_getD_succ acc _ hbound, List.length_cons]
      omega
    · have hb : ¬ voteInRange p a = true := by simpa [voteInRange] using h
      rw [if_neg h, if_neg hb, ih _ hlen]

theorem count_foldl_getD (p : Poll) (v : List Vote) (acc : List Nat) (i : Nat)
    (hlen : acc.length = p.options.length) (hi : i < p.options.length) :
    (v.foldl
      (fun voteCounts vote =>
        if 0 ≤ vote.option_index ∧ vote.option_index < (p.options.length : Int) then
          voteCounts.set vote.option_index.toNat
            (voteCounts.getD vote.option_index.toNat 0 + 1)
        else
          voteCounts) acc).getD i 0
    = acc.getD i 0 + (v.filter (fun vote => vote.option_index == (i : Int))).length := by
  induction v generalizing acc with
  | nil => simp
  | cons a t ih =>
    rw [List.foldl_cons, List.filter_cons]
    by_cases heq : a.option_index = (i : Int)
    · have h : 0 ≤ a.option_index ∧ a.option_index < (p.options.length : Int) := by
        constructor <;> omega
      have hbeq : (a.option_index == (i : Int)) = true := by simpa using heq
      have htoNat : a.option_index.toNat = i := by omega
      have hlen' : (acc.set a.option_index.toNat
          (acc.getD a.option_index.toNat 0 + 1)).length = p.options.length := by
        rw [List.length_set, hlen]
      rw [if_pos h, if_pos hbeq, ih _ hlen', htoNat,
        getD_set_self acc i _ 0 (by omega), List.length_cons]
      omega
    · have hbeq : ¬ (a.option_index == (i : Int)) = true := by simpa using heq
      by_cases h : 0 ≤ a.option_index ∧ a.option_index < (p.options.length : Int)
      · have hne : a.option_index.toNat ≠ i := by omega
        have hlen' : (acc.set a.option_index.toNat
            (acc.getD a.option_index.toNat 0 + 1)).length = p.options.length := by
          rw [List.length_set, hlen]
        rw [if_pos h, if_neg hbeq, ih _ hlen', getD_set_ne acc _ i _ 0 hne]
      · rw [if_neg h, if_neg hbeq, ih _ hlen]

theorem sum_range_map_getD (l : List Nat) :
    ((List.range l.length).map (fun i => l.getD i 0)).sum = l.sum := by
  induction l with
  | nil => simp
  | cons a t ih =>
    rw [List.length_cons, List.range_succ_eq_map, List.map_cons, List.map_map, List.sum_cons,
      show (fun i => (a :: t).getD i 0) ∘ Nat.succ = fun i => t.getD i 0 from rfl, ih,
      List.sum_cons]
    rfl

/-! ### Claim theorems -/

theorem mathRound_eq_round (q : ℚ) : mathRound q = round q := by
  rw [round_eq, mathRound]

theorem round_natCast_div_natCast_mul_100 (c t : ℕ) (h : 0 < t) :
    (round ((c : ℚ) / (t : ℚ) * 100)).toNat = (200 * c + t) / (2 * t) := by
  have ht : (t : ℚ) ≠ 0 := Nat.cast_ne_zero.mpr h.ne'
  have harg : (c : ℚ) / (t : ℚ) * 100 + 1 / 2
      = ((200 * c + t : ℕ) : ℚ) / ((2 * t : ℕ) : ℚ) := by
    push_cast
    field_simp
    ring
  rw [round_eq, harg, Rat.floor_natCast_div_natCast, ← Int.natCast_div, Int.toNat_natCast]

/-- C1: the vote counts reported by `calculateVoteResults` over the tally of
`countVotesByOption` sum to exactly the number of votes whose
`option_index` is in range. -/
theorem tallied_vote_counts_sum_to_in_range_votes (p : Poll) (v : List Vote) :
    ((calculateVoteResults p (countVotesByOption p v)).map VoteResult.vote_count).sum
      = (v.filter (voteInRange p)).length := by
  have hlen : (countVotesByOption p v).length = p.options.length := by
    unfold countVotesByOption
    rw [count_foldl_length, List.length_replicate]
  have hsum : (countVotesByOption p v).sum = (v.filter (voteInRange p)).length := by
    unfold countVotesByOption
    rw [count_foldl_sum p v _ (by rw [List.length_replicate])]
    simp
  have hmap : (calculateVoteResults p (countVotesByOption p v)).map VoteResult.vote_count
      = (List.range p.options.length).map
          (fun i => (countVotesByOption p v).getD i 0) := by
    simp only [calculateVoteResults]
    rw [List.map_map, ← List.enum_map_fst p.options, List.map_map]
    exact List.map_congr_left (fun oi _ => rfl)
  rw [hmap, ← hlen, sum_range_map_getD, hsum]

/-- C7: `countVotesByOption` yields one counter per option in option order
(counter `i` counts exactly the votes for option `i`), and out-of-range
votes are ignored: filtering them away changes nothing. -/
theorem countVotesByOption_shape_and_out_of_range (p : Poll) (v : List Vote) :
    (countVotesByOption p v).length = p.options.length
    ∧ countVotesByOption p (v.filter (voteInRange p)) = countVotesByOption p v
    ∧ ∀ i, i < p.options.length →
        (countVotesByOption p v).getD i 0
          = (v.filter (fun vote => vote.option_index == (i : Int))).length := by
  refine ⟨?_, ?_, ?_⟩
  · unfold countVotesByOption
    rw [count_foldl_length, List.length_replicate]
  · unfold countVotesByOption
    rw [count_foldl_filter]
  · intro i hi
    unfold countVotesByOption
    rw [count_foldl_getD p v _ i (by rw [List.length_replicate]) hi]
    simp [List.getD_eq_getElem?_getD, List.getElem?_replicate, hi]

/-- C7 witness: the worked scenario plus one out-of-range and one negative
vote: counters stay `[2, 1, 0]` and counter 1 counts the single vote for
option 1. -/
theorem countVotesByOption_shape_witness :
    (countVotesByOption pollABC
        [⟨some "u1", 0⟩, ⟨some "u2", 0⟩, ⟨some "u3", 1⟩, ⟨some "u4", 5⟩, ⟨none, -1⟩]).length = 3
    ∧ (countVotesByOption pollABC
        [⟨some "u1", 0⟩, ⟨some "u2", 0⟩, ⟨some "u3", 1⟩, ⟨some "u4", 5⟩, ⟨none, -1⟩]).getD 1 0 = 1 := by
  have h := countVotesByOption_shape_and_out_of_range pollABC
    [⟨some "u1", 0⟩, ⟨some "u2", 0⟩, ⟨some "u3", 1⟩, ⟨some "u4", 5⟩, ⟨none, -1⟩]
  refine ⟨by rw [h.1]; rfl, ?_⟩
  rw [h.2.2 1 (by decide)]
  rfl

/-- C8: `calculateVoteResults` is index-aligned with `poll.options`; entry
`i` carries `voteCounts[i]` (0 if absent) and the rounded percentage of the
total, or percentage 0 throughout when the total is 0. -/
theorem calculateVoteResults_pointwise (p : Poll) (vc : List Nat) :
    (calculateVoteResults p vc).length = p.options.length
    ∧ ∀ i, i < p.options.length →
        (calculateVoteResults p vc).getD i ⟨0, "", 0, 0⟩
          = { option_index := i
              option_text := p.options.getD i ""
              vote_count := vc.getD i 0
              percentage :=
                if 0 < vc.sum then
                  (round (((vc.getD i 0 : ℕ) : ℚ) / ((vc.sum : ℕ) : ℚ) * 100)).toNat
                else 0 } := by
  constructor
  · simp [calculateVoteResults]
  · intro i hi
    have hlen : i < (calculateVoteResults p vc).length := by
      simpa [calculateVoteResults] using hi
    have hfold : vc.foldl (· + ·) 0 = vc.sum := by
      rw [foldl_add_eq_sum]
      omega
    have htext : p.options.getD i "" = p.options[i] := List.getD_eq_getElem _ _ hi
    rw [List.getD_eq_getElem (calculateVoteResults p vc) _ hlen]
    simp only [calculateVoteResults, List.getElem_map, List.getElem_enum, htext, hfold,
      mathRound_eq_round]

/-- C8 witness: for counts `[2, 1, 0]` over the three-option poll, entry 0
is option `A` with 2 votes and 67 percent. -/
theorem calculateVoteResults_pointwise_witness :
    (calculateVoteResults pollABC [2, 1, 0]).getD 0 ⟨0, "", 0, 0⟩
      = { option_index := 0, option_text := "A", vote_count := 2, percentage := 67 } := by
  rw [(calculateVoteResults_pointwise pollABC [2, 1, 0]).2 0 (by decide)]
  have h67 := round_natCast_div_natCast_mul_100 2 3 (by norm_num)
  norm_num [pollABC] at h67 ⊢
  exact h67

/-- C9: with no existing vote, `validateVote` fails with the
`Invalid option selected` error exactly when the option index is negative or
at least `poll.options.length`, and succeeds otherwise. -/
theorem validateVote_none_invalid_iff_out_of_range (i : Int) (p : Poll) :
    validateVote i p none =
      if i < 0 ∨ (p.options.length : Int) ≤ i then
        { isValid := false, error := some "Invalid option selected" }
      else
        { isValid := true, error := none } := by
  unfold validateVote
  split
  · rfl
  · simp

/-- C10: `getUserVote` treats the empty-string user id as anonymous and
returns `none` for every vote list, also when a vote row's `user_id` is
itself the empty string. -/
theorem getUserVote_empty_string_is_anonymous (votes : List Vote) :
    getUserVote votes (some "") = none := by
  simp [getUserVote]

/-- C3 counterexample: with an existing vote present but an out-of-range
index, `validateVote` reports `Invalid option selected`, not the
already-voted error, refuting the claim for arbitrary indices. -/
theorem validateVote_already_voted_cex :
    (some 0 : Option Int) ≠ none
    ∧ validateVote (-1) pollAB (some 0) =
        { isValid := false, error := some "Invalid option selected" }
    ∧ (validateVote (-1) pollAB (some 0)).error ≠
        some "You have already voted on this poll" := by
  refine ⟨by decide, rfl, by decide⟩

/-- C3 (amended): whenever the option index is in range, `validateVote`
fails with the already-voted error as soon as an existing vote is present,
even one for the same option index. -/
theorem validateVote_already_voted_in_range (i : Int) (p : Poll) (ev : Option Int)
    (h0 : 0 ≤ i) (h1 : i < (p.options.length : Int)) (hev : ev ≠ none) :
    validateVote i p ev =
      { isValid := false, error := some "You have already voted on this poll" } := by
  unfold validateVote
  rw [if_neg (by omega)]
  rw [if_pos hev]

/-- C3 witness: re-voting the very option one already voted for is rejected
as already voted. -/
theorem validateVote_already_voted_in_range_witness :
    validateVote 0 pollAB (some 0) =
      { isValid := false, error := some "You have already voted on this poll" } :=
  validateVote_already_voted_in_range 0 pollAB (some 0) (by decide) (by decide) (by decide)

/-- C2: once the vote endpoint reaches the insert (authenticated user with
no auth error, existing poll, body within the zod bounds, no prior vote by
the user), an insert failure carrying the uniqueness-violation signal —
Postgres code `23505` or a `duplicate key` message — is answered with 409
`Already voted`, and a successful insert with 201. -/
theorem votePOST_duplicate_409_success_201 (env : VoteRequestEnv) (uid : String)
    (poll : Poll) (i : Int)
    (hu : env.user = some uid) (hue : env.userError = false)
    (hp : env.poll = some poll) (hb : env.body = some i)
    (h0 : 0 ≤ i) (h1 : i < (poll.options.length : Int))
    (hnov : env.existingVotes = []) :
    (∀ e : DbError, env.insertError = some e →
        e.code = "23505" ∨ strIncludes e.message "duplicate key" →
        votePOST env
          = { status := 409, error := some "Already voted", insertAttempted := true })
    ∧ (env.insertError = none →
        votePOST env
          = { status := 201, error := none, insertAttempted := true }) := by
  have hval : validateVote i poll
      (getUserVote
        (List.map (fun oi => ({ user_id := some uid, option_index := oi } : Vote)) [])
        (some uid))
      = { isValid := true, error := none } := by
    rw [List.map_nil, getUserVote_nil]
    unfold validateVote
    rw [if_neg (by omega)]
    simp
  constructor
  · intro e he hdup
    unfold votePOST
    rw [hu, hue, hp, hb, hnov, he]
    simp only [hval]
    rw [if_neg (show ¬(i < 0 ∨ (poll.options.length : Int) - 1 < i) from by omega)]
    simp [hdup]
  · intro he
    unfold votePOST
    rw [hu, hue, hp, hb, hnov, he]
    simp only [hval]
    rw [if_neg (show ¬(i < 0 ∨ (poll.options.length : Int) - 1 < i) from by omega)]
    simp

/-- C2 witness: with the two-option poll, option index 1, no prior vote,
both insert outcomes are exercised: the duplicate-key failure yields 409 and
the clean insert 201. -/
theorem votePOST_duplicate_409_success_201_witness :
    votePOST
        { user := some "u1", userError := false, poll := some pollAB, body := some 1,
          existingVotes := [],
          insertError := some { code := "23505", message := "duplicate key value" } }
      = { status := 409, error := some "Already voted", insertAttempted := true }
    ∧ votePOST
        { user := some "u1", userError := false, poll := some pollAB, body := some 1,
          existingVotes := [], insertError := none }
      = { status := 201, error := none, insertAttempted := true } := by
  constructor
  · exact (votePOST_duplicate_409_success_201 _ "u1" pollAB 1 rfl rfl rfl rfl
      (by decide) (by decide) rfl).1 _ rfl (Or.inl rfl)
  · exact (votePOST_duplicate_409_success_201 _ "u1" pollAB 1 rfl rfl rfl rfl
      (by decide) (by decide) rfl).2 rfl

/-- The non-owner scenario: `alice` owns the poll, `dave` voted on it, and
`bob` is the authenticated requester. -/
def alicePoll : Poll :=
  { id := "poll9", question := "Tea or coffee?", options := ["Tea", "Coffee"],
    user_id := "alice" }

/-- A store holding `alice`'s poll and one vote on it. -/
def smallDb : Database :=
  { polls := [alicePoll]
    votes := [{ poll_id := "poll9", user_id := some "dave", option_index := 1 }] }

/-- C5 counterexample: the non-owner requester `bob` updating or deleting
`alice`'s poll gets `error = none` back — the operations report success, not
an authorization error — although the store is left unchanged. -/
theorem nonOwner_update_delete_reports_success :
    (updatePoll smallDb "poll9" "New question" ["X", "Y"] (some "bob") none none).error = none
    ∧ (updatePoll smallDb "poll9" "New question" ["X", "Y"] (some "bob") none none).db = smallDb
    ∧ (deletePoll smallDb "poll9" (some "bob") none).error = none
    ∧ (deletePoll smallDb "poll9" (some "bob") none).db = smallDb := by
  refine ⟨rfl, by decide, rfl, by decide⟩

/-- C5 (amended): when the authenticated requester owns no poll with the
target id, `updatePoll` (on input passing validation) and `deletePoll`
leave every poll and every vote unchanged — but both report success
(`error = none`) rather than an authorization error; the owner restriction
comes from the `.eq("user_id", ...)` filter and the row-level-security
policies, which silently match zero rows. -/
theorem nonOwner_update_delete_no_mutation (db : Database) (pollId : String)
    (question : String) (rawOptions : List String) (uid : String)
    (hq : question ≠ "")
    (hopts : 2 ≤ (rawOptions.filter (fun s => !(s == ""))).length)
    (hown : ∀ p ∈ db.polls, p.id = pollId → p.user_id ≠ uid) :
    updatePoll db pollId question rawOptions (some uid) none none
      = { error := none, db := db }
    ∧ deletePoll db pollId (some uid) none = { error := none, db := db } := by
  constructor
  · have hmap : db.polls.map (fun p =>
        if p.id = pollId ∧ p.user_id = uid then
          { p with question := question,
                   options := rawOptions.filter (fun s => !(s == "")) }
        else p) = db.polls := by
      have h1 : ∀ p ∈ db.polls, (if p.id = pollId ∧ p.user_id = uid then
          ({ p with question := question,
                    options := rawOptions.filter (fun s => !(s == "")) } : Poll)
        else p) = id p := by
        intro p hp
        rw [if_neg (fun hc => hown p hp hc.1 hc.2), id_eq]
      rw [List.map_congr_left h1, List.map_id]
    unfold updatePoll
    rw [if_neg (by push_neg; exact ⟨hq, by omega⟩)]
    simp only [hmap]
  · have hkeep : db.polls.filter
        (fun p => decide (¬(p.id = pollId ∧ some p.user_id = some uid))) = db.polls := by
      refine List.filter_eq_self.mpr (fun p hp => ?_)
      simp only [decide_eq_true_eq, not_and]
      exact fun hc1 hc2 => hown p hp hc1 (Option.some.inj hc2)
    have hgone : db.polls.filter
        (fun p => decide (p.id = pollId ∧ some p.user_id = some uid)) = [] := by
      refine List.filter_eq_nil_iff.mpr (fun p hp => ?_)
      simp only [decide_eq_true_eq, not_and]
      exact fun hc1 hc2 => hown p hp hc1 (Option.some.inj hc2)
    have hvotesKeep : db.votes.filter
        (fun v => decide (¬ v.poll_id ∈ ([] : List String))) = db.votes :=
      List.filter_eq_self.mpr (fun v _ => by simp)
    unfold deletePoll
    simp only [hgone, List.map_nil, hkeep, hvotesKeep]

/-- C5 witness: `carol`, another non-owner, updating and deleting in the
concrete store — both succeed without touching it. -/
theorem nonOwner_update_delete_no_mutation_witness :
    updatePoll smallDb "poll9" "Other question" ["X", "Y"] (some "carol") none none
      = { error := none, db := smallDb }
    ∧ deletePoll smallDb "poll9" (some "carol") none = { error := none, db := smallDb } :=
  nonOwner_update_delete_no_mutation smallDb "poll9" "Other question" ["X", "Y"] "carol"
    (by decide) (by decide) (by decide)

/-- C6 counterexample environment: no authenticated user, an existing
two-option poll, the valid option index 0, and a data store that would
accept the insert. -/
def anonVoteEnv : VoteRequestEnv :=
  { user := none, userError := false, poll := some pollAB, body := some 0,
    existingVotes := [], insertError := none }

/-- C6 counterexample: on an unauthenticated request with a valid option
index for an existing poll, the vote endpoint rejects with 401 and never
reaches the insert — the vote is not recorded and no success is reported. -/
theorem votePOST_anonymous_rejected_401 :
    votePOST anonVoteEnv
      = { status := 401, error := some "Authentication required to vote",
          insertAttempted := false }
    ∧ votePOST anonVoteEnv ≠ { status := 201, error := none, insertAttempted := true } := by
  refine ⟨rfl, by decide⟩

/-- C6 (amended): the server action `submitVote` does accept a null voter —
with no authenticated user and an accepting store it reports success and
records the vote with a null voter reference — whereas the HTTP vote
endpoint requires authentication. -/
theorem submitVote_accepts_anonymous (pollId : String) (optionIndex : Int) :
    submitVote pollId optionIndex none none
      = { error := none
          inserted := [{ poll_id := pollId, user_id := none, option_index := optionIndex }] } :=
  rfl

/-- C4: evaluating `createPollResults` at a voter whose chosen option index
is `0` shows the falsy-coalescing slip `userVote || undefined`:
`has_user_voted` is `true`, yet `user_vote` is dropped to `none` instead of
holding the chosen index `0`. -/
theorem createPollResults_drops_option_zero_vote :
    (createPollResults pollAB [{ user_id := some "u1", option_index := 0 }] (some "u1")).has_user_voted = true
    ∧ (createPollResults pollAB [{ user_id := some "u1", option_index := 0 }] (some "u1")).user_vote = none
    ∧ getUserVote [{ user_id := some "u1", option_index := 0 }] (some "u1") = some 0 := by
  refine ⟨rfl, rfl, rfl⟩
